import Mathlib

/-!
Verification development for the agentic_rag_go repository.

Shallow embedding of the request-admission layer (rate limiter and auth
middleware, src/internal/api/middleware.go), the route table and HTTP
handlers (src/internal/api/server.go), the embedding service
(src/internal/embedding/service.go), the agent factory
(src/internal/agent/factory.go) and the Qdrant vector-store client
(src/internal/vectorstore/qdrant/client.go).

Go machine integers are modelled as Int where the source uses int and as
Nat where the source uses unsigned or time values; timestamps and
durations are abstract Nat time units (the code only compares elapsed
durations against the configured window).  Vector components (float32 in
the source) are modelled as exact rationals; no embedded code performs
arithmetic on them, they are opaque payload data.  Go maps with string
keys are modelled as association lists with overwrite-on-insert
semantics.  Fallible calls return Except String.
-/

namespace AgenticRag

/-! ## Rate limiter (src/internal/api/middleware.go, clientLimiter / rateLimiter) -/

/-- Per-address record: clientLimiter, middleware.go lines 21 to 25
(tokens is a Go int, last a timestamp). -/
structure ClientLimiter where
  tokens : Int
  last : Nat
deriving DecidableEq, Repr

/-- rateLimiter, middleware.go lines 14 to 19: map of per-address records
plus the configured rate and window.  The Go map is modelled as an
association list. -/
structure RateLimiter where
  clients : List (String × ClientLimiter)
  rate : Int
  window : Nat
deriving DecidableEq, Repr

/-- Lookup of rl.clients[ip] (Go map read). -/
def lookupClient (cs : List (String × ClientLimiter)) (ip : String) :
    Option ClientLimiter :=
  (cs.find? (fun p => p.1 == ip)).map (fun p => p.2)

/-- In-place update of the record stored under ip (the Go code mutates
the record through a pointer, leaving the map structure unchanged). -/
def setClient (cs : List (String × ClientLimiter)) (ip : String)
    (cl : ClientLimiter) : List (String × ClientLimiter) :=
  cs.map (fun p => if p.1 == ip then (ip, cl) else p)

/-- rateLimiter.allow, middleware.go lines 72 to 102.  now is the value
of time.Now at the call; time.Since(cl.last) is now - cl.last. -/
def allow (rl : RateLimiter) (now : Nat) (ip : String) :
    Bool × RateLimiter :=
  match lookupClient rl.clients ip with
  | none =>
      (true, { rl with clients := (ip, ⟨rl.rate - 1, now⟩) :: rl.clients })
  | some cl =>
      if rl.window ≤ now - cl.last then
        (true, { rl with clients := setClient rl.clients ip ⟨rl.rate - 1, now⟩ })
      else if 0 < cl.tokens then
        (true, { rl with clients := setClient rl.clients ip ⟨cl.tokens - 1, cl.last⟩ })
      else
        (false, rl)

/-- Outcome of a middleware gate: pass the request to the next handler,
or reject it with the given HTTP status. -/
inductive GateDecision where
  | next
  | rejected (status : Nat)
deriving DecidableEq, Repr

/-- middleware.rateLimit, middleware.go lines 55 to 70: disabled when the
configured rate is zero, otherwise consults allow and rejects with
HTTP 429 when it refuses. -/
def rateLimit (rl : RateLimiter) (now : Nat) (ip : String) :
    GateDecision × RateLimiter :=
  if rl.rate = 0 then (.next, rl)
  else
    let step := allow rl now ip
    if step.1 then (.next, step.2) else (.rejected 429, step.2)

/-- Runs the rate-limit gate on a sequence of requests from one address,
one call per listed arrival time, threading the limiter state. -/
def runGate (ip : String) : RateLimiter → List Nat → List GateDecision × RateLimiter
  | rl, [] => ([], rl)
  | rl, t :: ts =>
      let step := rateLimit rl t ip
      let rest := runGate ip step.2 ts
      (step.1 :: rest.1, rest.2)

/-- rateLimiter.cleanup, middleware.go lines 104 to 115: deletes every
record with time.Since(cl.last) > rl.window*5, keeps the rest. -/
def cleanup (rl : RateLimiter) (now : Nat) : RateLimiter :=
  { rl with clients := rl.clients.filter (fun p => !(rl.window * 5 < now - p.2.last)) }

/-! ## Auth middleware (src/internal/api/middleware.go, middleware.auth) -/

/-- An HTTP response, reduced to status code and body text (error bodies
are modelled by their message; JSON envelope serialization is wire
plumbing outside the embedded logic). -/
structure Response where
  status : Nat
  body : String
deriving DecidableEq, Repr

/-- Go net/http Header.Get: the header value, or the empty string when
the header is absent. -/
def headerGet (headers : List (String × String)) (k : String) : String :=
  match headers.find? (fun p => p.1 == k) with
  | some p => p.2
  | none => ""

/-- middleware.auth, middleware.go lines 38 to 53: with an empty
configured key every request passes; otherwise the X-API-Key header must
equal the key, else HTTP 401 without calling the wrapped handler. -/
def auth (apiKey : String) (next : List (String × String) → Response)
    (headers : List (String × String)) : Response :=
  if apiKey = "" then next headers
  else
    if headerGet headers "X-API-Key" ≠ apiKey then ⟨401, "Unauthorized"⟩
    else next headers

/-! ## Background tasks

Goroutines started by the program, translated from the source: main
(cmd/server/main.go line 57) starts exactly one goroutine, the shutdown
signal handler.  NewServer (server.go lines 43 to 90) and newMiddleware
(middleware.go lines 27 to 36) start none: no goroutine, ticker or timer
anywhere in the program invokes rateLimiter.cleanup (its only caller is
a unit test). -/

inductive BackgroundTask where
  | shutdownSignalHandler
  | rateLimiterSweep
deriving DecidableEq, Repr

/-- Goroutines spawned by main, cmd/server/main.go. -/
def mainBackgroundTasks : List BackgroundTask := [.shutdownSignalHandler]

/-- Goroutines spawned by NewServer, server.go lines 43 to 90. -/
def newServerBackgroundTasks : List BackgroundTask := []

/-- Goroutines spawned by newMiddleware, middleware.go lines 27 to 36. -/
def newMiddlewareBackgroundTasks : List BackgroundTask := []

/-! ## String-keyed maps

Go maps with string keys, modelled as association lists.  mapSet is a
map write: it removes any existing binding of the key and appends the
new one (later writes win, matching Go map assignment); mapGet is a map
read. -/

def mapGet (m : List (String × String)) (k : String) : Option String :=
  (m.find? (fun p => p.1 == k)).map (fun p => p.2)

def mapSet (m : List (String × String)) (k : String) (v : String) :
    List (String × String) :=
  m.filter (fun p => p.1 != k) ++ [(k, v)]

/-! ## Qdrant client (src/internal/vectorstore/qdrant/client.go) -/

/-- SparseVector, client.go lines 329 to 333. -/
structure SparseVector where
  indices : List Nat
  values : List ℚ
deriving DecidableEq, Repr

/-- Document, client.go lines 320 to 327. -/
structure Document where
  id : String
  content : String
  metadata : List (String × String)
  dense : List ℚ
  sparse : Option SparseVector
deriving DecidableEq, Repr

/-- A Qdrant point as constructed by Client.Upsert: id, payload and the
named dense and optional sparse vectors. -/
structure PointStruct where
  id : String
  payload : List (String × String)
  dense : List ℚ
  sparse : Option SparseVector
deriving DecidableEq, Repr

/-- Payload construction inside Client.Upsert, client.go lines 346 to
355: payload["content"] is written first from doc.Content, then every
metadata entry is written on top of it (so a metadata key "content"
overwrites the chunk text). -/
def buildPayload (doc : Document) : List (String × String) :=
  doc.metadata.foldl (fun p kv => mapSet p kv.1 kv.2)
    (mapSet [] "content" doc.content)

/-- Point construction inside Client.Upsert, client.go lines 339 to 396.
fresh supplies the uuid generated when a document id is empty. -/
def buildPoints (fresh : Nat → String) (docs : List Document) :
    List PointStruct :=
  docs.enum.map (fun p =>
    { id := if p.2.id = "" then fresh p.1 else p.2.id
      payload := buildPayload p.2
      dense := p.2.dense
      sparse := p.2.sparse })

/-- Client.Upsert, client.go lines 336 to 407: builds the points and
issues one batched points.Upsert call to the external index;
pointsUpsert is that external call. -/
def qdrantUpsert (pointsUpsert : List PointStruct → Except String Unit)
    (fresh : Nat → String) (docs : List Document) : Except String Unit :=
  match pointsUpsert (buildPoints fresh docs) with
  | .error e => .error ("failed to upsert points: " ++ e)
  | .ok _ => .ok ()

/-- The fusion mode requested from the index. -/
inductive Fusion where
  | rrf
deriving DecidableEq, Repr

/-- One prefetch sub-query of the fused query, client.go lines 420 to
454: a dense nearest-neighbor search, or a sparse one, each limited to
topK candidates. -/
inductive PrefetchQuery where
  | denseNearest (v : List ℚ) (limit : Nat)
  | sparseNearest (sv : SparseVector) (limit : Nat)
deriving DecidableEq, Repr

/-- The fused points.Query request built by Client.HybridSearch,
client.go lines 456 to 468. -/
structure QueryRequest where
  prefetch : List PrefetchQuery
  fusion : Fusion
  limit : Nat
  withPayload : Bool
deriving DecidableEq, Repr

/-- The request Client.HybridSearch sends: a dense prefetch always, a
sparse prefetch when a sparse query vector is supplied, combined with
RRF fusion and truncated to topK. -/
def buildHybridQuery (dense : List ℚ) (sparse : Option SparseVector)
    (topK : Nat) : QueryRequest :=
  { prefetch :=
      [PrefetchQuery.denseNearest dense topK] ++
        (match sparse with
         | none => []
         | some sv => [PrefetchQuery.sparseNearest sv topK])
    fusion := .rrf
    limit := topK
    withPayload := true }

/-- A scored point returned by the index, reduced to the fields the
client reads: uuid (empty when absent), score and string payload. -/
structure ScoredPoint where
  id : String
  score : ℚ
  payload : List (String × String)
deriving DecidableEq, Repr

/-- SearchResult, client.go lines 409 to 415. -/
structure SearchResult where
  id : String
  score : ℚ
  content : String
  payload : List (String × String)
deriving DecidableEq, Repr

/-- Result mapping inside Client.HybridSearch, client.go lines 473 to
497: the stored content payload field becomes Content, every other
non-empty string payload entry is kept as metadata. -/
def extractSearchResult (p : ScoredPoint) : SearchResult :=
  { id := p.id
    score := p.score
    content :=
      match mapGet p.payload "content" with
      | some v => if v = "" then "" else v
      | none => ""
    payload := p.payload.filter (fun kv => kv.2 != "" && kv.1 != "content") }

/-- Client.HybridSearch, client.go lines 418 to 500.  pointsQuery is the
external fused points.Query call. -/
def hybridSearch (pointsQuery : QueryRequest → Except String (List ScoredPoint))
    (dense : List ℚ) (sparse : Option SparseVector) (topK : Nat) :
    Except String (List SearchResult) :=
  match pointsQuery (buildHybridQuery dense sparse topK) with
  | .error e => .error ("failed to search: " ++ e)
  | .ok pts => .ok (pts.map extractSearchResult)

/-- Modelled from the spec: the RRF fused score computed by the external
Qdrant service for the Fusion_RRF query the client issues (the scoring
itself is not in this repository).  Per the spec, a fused score is the
sum, over every sub-list containing the candidate, of
1 / (rank_in_that_list + constant); ranks is the list of the ranks the
candidate holds in the sub-lists containing it. -/
def rrfScore (c : ℚ) (ranks : List Nat) : ℚ :=
  (ranks.map (fun r => 1 / ((r : ℚ) + c))).sum

/-! ## Embedding service (src/internal/embedding/service.go)

embedContent is the external genai EmbedContent call for a batch of
contents; its reply is modelled as none for a nil Embeddings slice and
some vs for a non-nil slice of vectors. -/

/-- Service.EmbedDocuments, service.go lines 62 to 84: fails when the
provider errors, and when the returned vector count (0 for nil) differs
from the document count. -/
def embedDocuments
    (embedContent : List String → Except String (Option (List (List ℚ))))
    (documents : List String) : Except String (List (List ℚ)) :=
  match embedContent documents with
  | .error e => .error ("embed content failed: " ++ e)
  | .ok none =>
      .error ("unexpected number of embeddings: got 0, expected " ++
        toString documents.length)
  | .ok (some embs) =>
      if embs.length ≠ documents.length then
        .error ("unexpected number of embeddings: got " ++ toString embs.length ++
          ", expected " ++ toString documents.length)
      else
        .ok embs

/-- Service.EmbedQuery, service.go lines 44 to 59: a single-item
EmbedContent call; a nil or empty Embeddings reply is an error,
otherwise the first vector is returned. -/
def embedQuery
    (embedContent : List String → Except String (Option (List (List ℚ))))
    (query : String) : Except String (List ℚ) :=
  match embedContent [query] with
  | .error e => .error ("embed content failed: " ++ e)
  | .ok none => .error "no embeddings returned"
  | .ok (some []) => .error "no embeddings returned"
  | .ok (some (v :: _)) => .ok v

/-! ## Agent factory (src/internal/agent/factory.go) -/

/-- RetrievedContext, factory.go lines 67 to 71. -/
structure RetrievedContext where
  documents : List SearchResult
  query : String
deriving DecidableEq, Repr

/-- Factory.Retrieve, factory.go lines 73 to 96: defaults topK to 10
when not positive, embeds the query and runs the hybrid search with no
sparse query vector. -/
def retrieve
    (embedContent : List String → Except String (Option (List (List ℚ))))
    (pointsQuery : QueryRequest → Except String (List ScoredPoint))
    (cfgTopK : Int) (query : String) : Except String RetrievedContext :=
  let topK : Int := if cfgTopK ≤ 0 then 10 else cfgTopK
  match embedQuery embedContent query with
  | .error e => .error ("embedding query failed: " ++ e)
  | .ok v =>
      match hybridSearch pointsQuery v none topK.toNat with
      | .error e => .error ("retrieval failed: " ++ e)
      | .ok results => .ok ⟨results, query⟩

/-- Two-decimal rendering of a score, modelling the %.2f format verb
used for document scores in the retrieved-knowledge listing. -/
def fmtScore (q : ℚ) : String :=
  let c : Int := round (q * 100)
  let a := c.natAbs
  (if c < 0 then "-" else "") ++ toString (a / 100) ++ "." ++
    (if a % 100 < 10 then "0" else "") ++ toString (a % 100)

/-- One line of the retrieved-knowledge listing, factory.go lines 106
to 110 (i is the zero-based position of the document). -/
def docLine (i : Nat) (doc : SearchResult) : String :=
  "### Document " ++ toString (i + 1) ++ " (Score: " ++ fmtScore doc.score ++
    ")\n" ++ doc.content ++ "\n\n"

/-- The retrieved-knowledge section built by Factory.NewRunner,
factory.go lines 102 to 111: empty when there is no retrieved context
or no documents, otherwise a delimited listing of every document. -/
def buildContextSection (retrieved : Option RetrievedContext) : String :=
  match retrieved with
  | none => ""
  | some rc =>
      if 0 < rc.documents.length then
        "\n\n## Retrieved Knowledge Base Documents\n\n" ++
          String.join (rc.documents.enum.map (fun p => docLine p.1 p.2))
      else ""

/-- The fixed strategy directives appended to every instruction,
factory.go lines 114 to 124. -/
def strategyText : String :=
  "STRATEGY:\n" ++
  "1. First, analyze the retrieved documents above to answer the user\x27s question.\n" ++
  "2. If the retrieved documents contain sufficient information, use them to formulate your answer.\n" ++
  "3. If the retrieved documents are insufficient or the topic requires current/real-time information, use google_search.\n" ++
  "4. Always indicate whether your answer comes from internal documents or web search.\n" ++
  "5. Cite sources when possible.\n"

/-- The generation instruction built by Factory.NewRunner: base persona
instruction, the context section, then the strategy directives. -/
def buildInstruction (base : String) (ctx : String) : String :=
  base ++ "\n\n" ++ ctx ++ "\n\n" ++ strategyText

/-- The event loop of handleChat, server.go lines 445 to 458: events are
consumed in order, each event contributes its non-empty text parts, and
the first error aborts the whole request (no partial answer).  An event
with nil content is modelled by an empty part list. -/
def drainEvents : List (Except String (List String)) → Except String String
  | [] => .ok ""
  | .error e :: _ => .error e
  | .ok parts :: rest =>
      match drainEvents rest with
      | .error e => .error e
      | .ok t => .ok (String.join (parts.filter (fun p => p != "")) ++ t)

/-! ## REST handlers (src/internal/api/server.go) -/

/-- A downstream call made by a handler, recorded in arrival order. -/
inductive Call where
  | splitText (text : String)
  | embedContent (documents : List String)
  | upsert (docs : List Document)
  | embedQueryCall (query : String)
  | pointsQueryCall (q : QueryRequest)
  | createSession (userID : String)
  | retrieveCall (query : String)
  | runAgent (instruction : String) (userID : String) (sessionID : String)
      (message : String)
deriving DecidableEq, Repr

/-- The collaborators a request handler reaches: the langchaingo text
splitter, the genai EmbedContent endpoint, the Qdrant points service,
the session service, the agent runner event stream, and the uuid
supply. -/
structure Collab where
  splitText : String → Except String (List String)
  embedContent : List String → Except String (Option (List (List ℚ)))
  pointsUpsert : List PointStruct → Except String Unit
  pointsQuery : QueryRequest → Except String (List ScoredPoint)
  createSession : String → Except String String
  runAgent : String → String → String → String → List (Except String (List String))
  freshId : Nat → String

/-- UploadTextRequest, server.go lines 164 to 168 (after JSON decode). -/
structure UploadTextRequest where
  text : String
  metadata : List (String × String)
  source : String
deriving DecidableEq, Repr

/-- Outcome of handleUploadText: the 200 response body fields, or an
error status with its message. -/
inductive UploadResult where
  | ok (message : String) (chunkCount : Nat) (chunkIDs : List String)
  | err (status : Nat) (msg : String)
deriving DecidableEq, Repr

/-- The metadata merge of handleUploadText, server.go lines 233 to 241:
caller metadata, then source (when non-empty), then chunk_index, later
writes winning. -/
def mergeMetadata (callerMeta : List (String × String)) (source : String)
    (i : Nat) : List (String × String) :=
  mapSet (if source = "" then callerMeta else mapSet callerMeta "source" source)
    "chunk_index" (toString i)

/-- The per-chunk documents handleUploadText builds, server.go lines 226
to 250: chunk i gets the i-th generated uuid, the chunk text as content,
the merged metadata and the i-th embedding vector; no sparse vector. -/
def buildDocs (fresh : Nat → String) (req : UploadTextRequest)
    (chunks : List String) (embs : List (List ℚ)) : List Document :=
  (chunks.zip embs).enum.map (fun p =>
    { id := fresh p.1
      content := p.2.1
      metadata := mergeMetadata req.metadata req.source p.1
      dense := p.2.2
      sparse := none })

/-- handleUploadText, server.go lines 194 to 265, with the downstream
calls it makes recorded in order. -/
def handleUploadText (C : Collab) (req : UploadTextRequest) :
    UploadResult × List Call :=
  if req.text = "" then (.err 400 "Text field is required", [])
  else
    match C.splitText req.text with
    | .error e => (.err 500 ("Failed to split text: " ++ e), [.splitText req.text])
    | .ok chunks =>
        if chunks.length = 0 then
          (.err 400 "No chunks generated from text", [.splitText req.text])
        else
          match embedDocuments C.embedContent chunks with
          | .error e =>
              (.err 500 ("Failed to generate embeddings: " ++ e),
               [.splitText req.text, .embedContent chunks])
          | .ok embeddings =>
              let docs := buildDocs C.freshId req chunks embeddings
              let chunkIDs := (List.range chunks.length).map C.freshId
              let tr := [Call.splitText req.text, Call.embedContent chunks,
                Call.upsert docs]
              match qdrantUpsert C.pointsUpsert C.freshId docs with
              | .error e => (.err 500 ("Failed to store documents: " ++ e), tr)
              | .ok _ =>
                  (.ok "Text uploaded and chunked successfully" chunks.length
                    chunkIDs, tr)

/-- SearchRequest, server.go lines 267 to 271 (after JSON decode). -/
structure SearchRequest where
  query : String
  topK : Int
deriving DecidableEq, Repr

/-- SearchResultItem, server.go lines 278 to 284. -/
structure SearchResultItem where
  id : String
  content : String
  score : ℚ
  metadata : List (String × String)
deriving DecidableEq, Repr

/-- Outcome of handleSearch. -/
inductive SearchResp where
  | ok (results : List SearchResultItem)
  | err (status : Nat) (msg : String)
deriving DecidableEq, Repr

/-- handleSearch, server.go lines 298 to 339.  The Go code converts the
defaulted topK with uint64(topK); the conversion is modelled by Int.toNat
(the two agree for the non-negative values a deployment configures). -/
def handleSearch (C : Collab) (cfgTopK : Int) (req : SearchRequest) :
    SearchResp × List Call :=
  if req.query = "" then (.err 400 "Query field is required", [])
  else
    let topK : Int := if req.topK ≤ 0 then cfgTopK else req.topK
    match embedQuery C.embedContent req.query with
    | .error e =>
        (.err 500 ("Failed to generate query embedding: " ++ e),
         [.embedQueryCall req.query])
    | .ok v =>
        let tr := [Call.embedQueryCall req.query,
          Call.pointsQueryCall (buildHybridQuery v none topK.toNat)]
        match hybridSearch C.pointsQuery v none topK.toNat with
        | .error e => (.err 500 ("Search failed: " ++ e), tr)
        | .ok results =>
            (.ok (results.map (fun r => ⟨r.id, r.content, r.score, r.payload⟩)), tr)

/-- ChatRequest, server.go lines 366 to 370 (after JSON decode). -/
structure ChatRequest where
  message : String
  sessionID : String
  userID : String
deriving DecidableEq, Repr

/-- Outcome of handleChat. -/
inductive ChatResp where
  | ok (response : String) (sessionID : String)
  | err (status : Nat) (msg : String)
deriving DecidableEq, Repr

/-- The tail of handleChat after session resolution, server.go lines 427
to 464: retrieval failure is degraded to no context, the instruction is
built with the context section, and the agent event stream is drained. -/
def chatWithSession (C : Collab) (cfgTopK : Int) (baseInstruction : String)
    (req : ChatRequest) (userID sessionID : String) (tr : List Call) :
    ChatResp × List Call :=
  let retrieved : Option RetrievedContext :=
    match retrieve C.embedContent C.pointsQuery cfgTopK req.message with
    | .error _ => none
    | .ok rc => some rc
  let instruction := buildInstruction baseInstruction (buildContextSection retrieved)
  let tr := tr ++ [Call.retrieveCall req.message,
    Call.runAgent instruction userID sessionID req.message]
  match drainEvents (C.runAgent instruction userID sessionID req.message) with
  | .error e => (.err 500 ("Agent error: " ++ e), tr)
  | .ok text => (.ok text sessionID, tr)

/-- handleChat, server.go lines 390 to 464. -/
def handleChat (C : Collab) (cfgTopK : Int) (baseInstruction : String)
    (req : ChatRequest) : ChatResp × List Call :=
  if req.message = "" then (.err 400 "Message field is required", [])
  else
    let userID := if req.userID = "" then "default_user" else req.userID
    if req.sessionID = "" then
      match C.createSession userID with
      | .error e =>
          (.err 500 ("Failed to create session: " ++ e), [.createSession userID])
      | .ok sid =>
          chatWithSession C cfgTopK baseInstruction req userID sid
            [.createSession userID]
    else
      chatWithSession C cfgTopK baseInstruction req userID req.sessionID []

/-- handleUploadTextV2, server.go lines 353 to 355: delegates to
handleUploadText. -/
def handleUploadTextV2 (C : Collab) (req : UploadTextRequest) :
    UploadResult × List Call :=
  handleUploadText C req

/-- handleSearchV2, server.go lines 357 to 359: delegates to
handleSearch. -/
def handleSearchV2 (C : Collab) (cfgTopK : Int) (req : SearchRequest) :
    SearchResp × List Call :=
  handleSearch C cfgTopK req

/-- handleChatV2, server.go lines 361 to 363: delegates to handleChat. -/
def handleChatV2 (C : Collab) (cfgTopK : Int) (baseInstruction : String)
    (req : ChatRequest) : ChatResp × List Call :=
  handleChat C cfgTopK baseInstruction req

/-! ## Route table (src/internal/api/server.go, registerRoutes) -/

/-- Server.apiVersion, set to "v1" in NewServer, server.go line 83. -/
def apiVersion : String := "v1"

/-- The handler each registered pattern is bound to. -/
inductive RouteHandler where
  | health
  | uploadText
  | search
  | chat
  | uploadTextV2
  | searchV2
  | chatV2
  | swagger
deriving DecidableEq, Repr

/-- Server.registerRoutes, server.go lines 93 to 115: the complete route
table of the server. -/
def registeredRoutes : List (String × RouteHandler) :=
  [ ("GET /health", .health),
    ("POST /api/" ++ apiVersion ++ "/upload_text", .uploadText),
    ("POST /api/" ++ apiVersion ++ "/search", .search),
    ("POST /api/" ++ apiVersion ++ "/chat", .chat),
    ("POST /api/" ++ apiVersion ++ "/documents/upload", .uploadTextV2),
    ("POST /api/" ++ apiVersion ++ "/documents/search", .searchV2),
    ("POST /api/" ++ apiVersion ++ "/conversations/chat", .chatV2),
    ("GET /docs/", .swagger) ]

/-! ## Rate limiter lemmas -/

/-- First sight of an address: the record is created with rate - 1
tokens and the window start set to the call time, and the request
passes. -/
theorem rateLimit_fresh (R : Int) (hR : R ≠ 0) (W t0 : Nat) (ip : String) :
    rateLimit ⟨[], R, W⟩ t0 ip = (.next, ⟨[(ip, ⟨R - 1, t0⟩)], R, W⟩) := by
  simp [rateLimit, allow, lookupClient, hR]

/-- An in-window call with a positive token count decrements the count,
leaves the window start alone, and passes. -/
theorem rateLimit_decrement (R : Int) (hR : R ≠ 0) (W t0 t : Nat)
    (ht : t - t0 < W) (ip : String) (k : Int) (hk : 0 < k) :
    rateLimit ⟨[(ip, ⟨k, t0⟩)], R, W⟩ t ip =
      (.next, ⟨[(ip, ⟨k - 1, t0⟩)], R, W⟩) := by
  have hW : ¬ W ≤ t - t0 := by omega
  simp [rateLimit, allow, lookupClient, setClient, hR, hW, hk]

/-- An in-window call with no tokens left is rejected with HTTP 429 and
leaves the state unchanged. -/
theorem rateLimit_reject (R : Int) (hR : R ≠ 0) (W t0 t : Nat)
    (ht : t - t0 < W) (ip : String) (k : Int) (hk : ¬ 0 < k) :
    rateLimit ⟨[(ip, ⟨k, t0⟩)], R, W⟩ t ip =
      (.rejected 429, ⟨[(ip, ⟨k, t0⟩)], R, W⟩) := by
  have hW : ¬ W ≤ t - t0 := by omega
  simp [rateLimit, allow, lookupClient, setClient, hR, hW, hk]

/-- A call at least a full window after the window start resets the
record to rate - 1 tokens with a new window start, and passes. -/
theorem rateLimit_reset (R : Int) (hR : R ≠ 0) (W t0 t : Nat)
    (ht : W ≤ t - t0) (ip : String) (k : Int) :
    rateLimit ⟨[(ip, ⟨k, t0⟩)], R, W⟩ t ip =
      (.next, ⟨[(ip, ⟨R - 1, t⟩)], R, W⟩) := by
  simp [rateLimit, allow, lookupClient, setClient, hR, ht]

/-- Starting from a record holding k tokens, k + 1 further in-window
calls produce k passes followed by one 429 rejection and drain the
record to zero tokens without moving the window start. -/
theorem runGate_exhaust (R : Int) (hR : R ≠ 0) (W t0 : Nat) (ip : String)
    (k : Nat) :
    ∀ ts : List Nat, ts.length = k + 1 → (∀ t ∈ ts, t - t0 < W) →
      runGate ip ⟨[(ip, ⟨(k : Int), t0⟩)], R, W⟩ ts =
        (List.replicate k GateDecision.next ++ [GateDecision.rejected 429],
         ⟨[(ip, ⟨0, t0⟩)], R, W⟩) := by
  induction k with
  | zero =>
      intro ts hlen hin
      match ts, hlen with
      | [t], _ =>
          have ht := hin t (by simp)
          simp [runGate, rateLimit_reject R hR W t0 t ht ip 0 (by omega)]
  | succ k ih =>
      intro ts hlen hin
      match ts, hlen with
      | t :: ts', hlen =>
          have ht := hin t (by simp)
          have hstep := rateLimit_decrement R hR W t0 t ht ip ((k : Int) + 1)
            (by positivity)
          rw [add_sub_cancel_right] at hstep
          have hrest := ih ts' (by simpa using hlen)
            (fun u hu => hin u (List.mem_cons_of_mem t hu))
          simp [runGate, hstep, hrest, List.replicate_succ]

/-- Claim C1: fixed-window rate limiting.  For a configured rate R with
1 at least and window W and a single client address, starting from an
empty limiter: the first call creates the address record with R - 1
remaining tokens; the first R consecutive calls within a span shorter
than W all pass while each later in-window call decrements a positive
token count; the (R + 1)th call in the same window is rejected with
HTTP 429; and the first call once at least W has elapsed since the
window start passes again with the token count reset to R - 1. -/
theorem fixed_window_rate_limit (R : Nat) (hR : 1 ≤ R) (W : Nat) (ip : String)
    (t0 : Nat) (ts : List Nat) (hlen : ts.length = R)
    (hin : ∀ t ∈ ts, t0 ≤ t ∧ t < t0 + W) (tr : Nat) (htr : t0 + W ≤ tr) :
    lookupClient ((rateLimit ⟨[], (R : Int), W⟩ t0 ip).2).clients ip =
      some ⟨(R : Int) - 1, t0⟩ ∧
    runGate ip ⟨[], (R : Int), W⟩ (t0 :: ts) =
      (List.replicate R GateDecision.next ++ [GateDecision.rejected 429],
       ⟨[(ip, ⟨0, t0⟩)], (R : Int), W⟩) ∧
    rateLimit ⟨[(ip, ⟨0, t0⟩)], (R : Int), W⟩ tr ip =
      (.next, ⟨[(ip, ⟨(R : Int) - 1, tr⟩)], (R : Int), W⟩) := by
  have hR0 : (R : Int) ≠ 0 := by
    simp only [ne_eq, Nat.cast_eq_zero]
    omega
  have hfresh := rateLimit_fresh (R : Int) hR0 W t0 ip
  refine ⟨by simp [hfresh, lookupClient], ?_, ?_⟩
  · have hcast : (R : Int) - 1 = ((R - 1 : Nat) : Int) := by
      push_cast [hR]
      ring
    have hrun := runGate_exhaust (R : Int) hR0 W t0 ip (R - 1) ts (by omega)
      (fun t htm => by
        have := hin t htm
        omega)
    rw [← hcast] at hrun
    have hR1 : R - 1 + 1 = R := by omega
    have hrepl : GateDecision.next :: (List.replicate (R - 1) GateDecision.next ++
        [GateDecision.rejected 429]) =
        List.replicate R GateDecision.next ++ [GateDecision.rejected 429] := by
      rw [← List.cons_append, ← List.replicate_succ, hR1]
    simp [runGate, hfresh, hrun, hrepl]
  · exact rateLimit_reset (R : Int) hR0 W t0 tr (by omega) ip 0

/-- Witness for fixed_window_rate_limit at R = 2, W = 10, address "a",
calls at times 0, 1, 2 and a reset call at time 10. -/
theorem fixed_window_rate_limit_witness :
    (1 ≤ 2 ∧ ([1, 2] : List Nat).length = 2 ∧
      (∀ t ∈ ([1, 2] : List Nat), 0 ≤ t ∧ t < 0 + 10) ∧ 0 + 10 ≤ 10) ∧
    (lookupClient ((rateLimit ⟨[], (2 : Int), 10⟩ 0 "a").2).clients "a" =
       some ⟨(2 : Int) - 1, 0⟩ ∧
     runGate "a" ⟨[], (2 : Int), 10⟩ [0, 1, 2] =
       (List.replicate 2 GateDecision.next ++ [GateDecision.rejected 429],
        ⟨[("a", ⟨0, 0⟩)], (2 : Int), 10⟩) ∧
     rateLimit ⟨[("a", ⟨0, 0⟩)], (2 : Int), 10⟩ 10 "a" =
       (.next, ⟨[("a", ⟨(2 : Int) - 1, 10⟩)], (2 : Int), 10⟩)) :=
  ⟨⟨by decide, by decide, by decide, by decide⟩,
   fixed_window_rate_limit 2 (by decide) 10 "a" 0 [1, 2] (by decide) (by decide)
     10 (by decide)⟩

/-- Claim C2: the auth gate.  With an empty configured key every request
passes to the wrapped handler; with a non-empty key K the request passes
exactly when the X-API-Key header value equals K (a missing header reads
as the empty value), and otherwise the result is an HTTP 401 rejection
that does not depend on the wrapped handler. -/
theorem auth_gate_spec (k : String) (next : List (String × String) → Response)
    (hs : List (String × String)) :
    (k = "" → auth k next hs = next hs) ∧
    (k ≠ "" →
      (headerGet hs "X-API-Key" = k → auth k next hs = next hs) ∧
      (headerGet hs "X-API-Key" ≠ k →
        auth k next hs = ⟨401, "Unauthorized"⟩ ∧
        ∀ next2 : List (String × String) → Response,
          auth k next2 hs = ⟨401, "Unauthorized"⟩)) := by
  refine ⟨fun hk => by simp [auth, hk], fun hk => ⟨fun hh => by simp [auth, hk, hh],
    fun hh => ⟨by simp [auth, hk, hh], fun next2 => by simp [auth, hk, hh]⟩⟩⟩

/-- Counterexample to claim C3: registerRoutes registers no unversioned
POST route at all, and no versioned health route; POST /upload_text,
POST /search and POST /chat are absent from the route table. -/
theorem unversioned_routes_missing :
    "POST /upload_text" ∉ registeredRoutes.map Prod.fst ∧
    "POST /search" ∉ registeredRoutes.map Prod.fst ∧
    "POST /chat" ∉ registeredRoutes.map Prod.fst ∧
    "GET /api/v1/health" ∉ registeredRoutes.map Prod.fst := by
  decide

/-- Claim C3 as amended: each API operation is registered at two
/api/v1 paths (a flat one and a documents/conversations one) rather
than at an unversioned path plus a versioned alias; the second path of
each pair is bound to a V2 handler that delegates to the first handler,
so the two paths produce identical responses for every request; /health
exists only unversioned. -/
theorem v1_alias_routes (C : Collab) (cfgTopK : Int) (base : String)
    (ureq : UploadTextRequest) (sreq : SearchRequest) (creq : ChatRequest) :
    (("POST /api/v1/upload_text", RouteHandler.uploadText) ∈ registeredRoutes ∧
     ("POST /api/v1/documents/upload", RouteHandler.uploadTextV2) ∈ registeredRoutes ∧
     ("POST /api/v1/search", RouteHandler.search) ∈ registeredRoutes ∧
     ("POST /api/v1/documents/search", RouteHandler.searchV2) ∈ registeredRoutes ∧
     ("POST /api/v1/chat", RouteHandler.chat) ∈ registeredRoutes ∧
     ("POST /api/v1/conversations/chat", RouteHandler.chatV2) ∈ registeredRoutes ∧
     ("GET /health", RouteHandler.health) ∈ registeredRoutes) ∧
    handleUploadTextV2 C ureq = handleUploadText C ureq ∧
    handleSearchV2 C cfgTopK sreq = handleSearch C cfgTopK sreq ∧
    handleChatV2 C cfgTopK base creq = handleChat C cfgTopK base creq :=
  ⟨by decide, rfl, rfl, rfl⟩

/-- Claim C4: an empty text given to upload and an empty query given to
search are rejected with HTTP 400 and no downstream call is made: the
recorded call trace is empty (no chunking, no embedding call, no
vector-index call). -/
theorem empty_input_validation (C : Collab) (M : List (String × String))
    (src : String) (cfgTopK tk : Int) :
    handleUploadText C ⟨"", M, src⟩ =
      (.err 400 "Text field is required", []) ∧
    handleSearch C cfgTopK ⟨"", tk⟩ =
      (.err 400 "Query field is required", []) :=
  ⟨rfl, rfl⟩

/-- Claim C8: the program starts no background goroutine that runs the
rate-limiter sweep (neither main, nor NewServer, nor newMiddleware;
rateLimiter.cleanup has no caller outside a unit test), although a
single cleanup run, when invoked, keeps exactly the records whose
idle time is at most 5 windows, each unchanged. -/
theorem cleanup_sweep_never_runs :
    BackgroundTask.rateLimiterSweep ∉
      mainBackgroundTasks ++ newServerBackgroundTasks ++
        newMiddlewareBackgroundTasks ∧
    ∀ (rl : RateLimiter) (now : Nat) (ip : String) (cl : ClientLimiter),
      ((ip, cl) ∈ (cleanup rl now).clients ↔
        (ip, cl) ∈ rl.clients ∧ ¬ rl.window * 5 < now - cl.last) := by
  refine ⟨by decide, fun rl now ip cl => ?_⟩
  simp [cleanup, List.mem_filter]

/-- Claim C9: the hybrid search query asks the index for RRF fusion of
the dense prefetch and, when a sparse query vector is supplied, the
sparse prefetch; under the spec-modelled RRF scoring with a positive
constant, a candidate ranked in both sub-lists scores strictly higher
than one holding the same rank in only one sub-list. -/
theorem rrf_fusion_monotone (c : ℚ) (hc : 0 < c) (r1 r2 : Nat)
    (dense : List ℚ) (sv : SparseVector) (topK : Nat) :
    (buildHybridQuery dense (some sv) topK).fusion = Fusion.rrf ∧
    (buildHybridQuery dense (some sv) topK).prefetch =
      [PrefetchQuery.denseNearest dense topK,
       PrefetchQuery.sparseNearest sv topK] ∧
    rrfScore c [r1] < rrfScore c [r1, r2] := by
  refine ⟨rfl, rfl, ?_⟩
  have h2 : 0 < (r2 : ℚ) + c := add_pos_of_nonneg_of_pos (Nat.cast_nonneg r2) hc
  have h2i : 0 < 1 / ((r2 : ℚ) + c) := by positivity
  have e1 : rrfScore c [r1] = 1 / ((r1 : ℚ) + c) := by
    simp [rrfScore]
  have e2 : rrfScore c [r1, r2] = 1 / ((r1 : ℚ) + c) + 1 / ((r2 : ℚ) + c) := by
    simp [rrfScore]
  rw [e1, e2]
  linarith

/-- Witness for rrf_fusion_monotone with constant 60 and ranks 0 and 1. -/
theorem rrf_fusion_monotone_witness :
    (0 : ℚ) < 60 ∧
    ((buildHybridQuery [] (some ⟨[], []⟩) 5).fusion = Fusion.rrf ∧
     (buildHybridQuery [] (some ⟨[], []⟩) 5).prefetch =
       [PrefetchQuery.denseNearest [] 5, PrefetchQuery.sparseNearest ⟨[], []⟩ 5] ∧
     rrfScore 60 [0] < rrfScore 60 [0, 1]) :=
  ⟨by norm_num, rrf_fusion_monotone 60 (by norm_num) 0 1 [] ⟨[], []⟩ 5⟩

/-! ## Ingestion lemmas -/

/-- The ids of the documents built for an upload are the generated uuids
in chunk order. -/
theorem buildDocs_map_id (fresh : Nat → String) (req : UploadTextRequest)
    (chunks : List String) (embs : List (List ℚ))
    (hlen : embs.length = chunks.length) :
    (buildDocs fresh req chunks embs).map (fun d => d.id) =
      (List.range chunks.length).map fresh := by
  unfold buildDocs
  rw [List.map_map]
  show (chunks.zip embs).enum.map (fun p => fresh p.1) = _
  have h2 : (fun p : Nat × (String × List ℚ) => fresh p.1) = fresh ∘ Prod.fst := rfl
  rw [h2, ← List.map_map, List.enum_map_fst, List.length_zip, hlen, min_self]

/-- The contents of the documents built for an upload are exactly the
chunks, in order. -/
theorem buildDocs_map_content (fresh : Nat → String) (req : UploadTextRequest)
    (chunks : List String) (embs : List (List ℚ))
    (hlen : embs.length = chunks.length) :
    (buildDocs fresh req chunks embs).map (fun d => d.content) = chunks := by
  unfold buildDocs
  rw [List.map_map]
  show (chunks.zip embs).enum.map (fun p => p.2.1) = _
  have h2 : (fun p : Nat × (String × List ℚ) => p.2.1) =
      Prod.fst ∘ Prod.snd := rfl
  rw [h2, ← List.map_map, List.enum_map_snd,
    List.map_fst_zip _ _ (by omega)]

/-- Claim C5: on every successful ingestion the response carries exactly
one chunk id per chunk produced by the chunker, chunk_count equals that
number, the ids are returned in chunk order (the i-th generated uuid),
and the id at position i is the id of the document built from chunk i
(whose content is chunk i). -/
theorem ingest_chunk_ids (C : Collab) (req : UploadTextRequest)
    (chunks : List String) (embs : List (List ℚ))
    (htext : req.text ≠ "")
    (hsplit : C.splitText req.text = .ok chunks)
    (hnz : chunks.length ≠ 0)
    (hemb : C.embedContent chunks = .ok (some embs))
    (hlen : embs.length = chunks.length)
    (hup : C.pointsUpsert
      (buildPoints C.freshId (buildDocs C.freshId req chunks embs)) = .ok ()) :
    handleUploadText C req =
      (.ok "Text uploaded and chunked successfully" chunks.length
        ((List.range chunks.length).map C.freshId),
       [.splitText req.text, .embedContent chunks,
        .upsert (buildDocs C.freshId req chunks embs)]) ∧
    ((List.range chunks.length).map C.freshId).length = chunks.length ∧
    (buildDocs C.freshId req chunks embs).map (fun d => d.id) =
      (List.range chunks.length).map C.freshId ∧
    (buildDocs C.freshId req chunks embs).map (fun d => d.content) = chunks := by
  have hED : embedDocuments C.embedContent chunks = .ok embs := by
    simp [embedDocuments, hemb, hlen]
  have hQ : qdrantUpsert C.pointsUpsert C.freshId
      (buildDocs C.freshId req chunks embs) = .ok () := by
    simp [qdrantUpsert, hup]
  refine ⟨?_, by simp, buildDocs_map_id C.freshId req chunks embs hlen,
    buildDocs_map_content C.freshId req chunks embs hlen⟩
  simp [handleUploadText, htext, hsplit, hnz, hED, hQ]

/-- A concrete collaborator bundle used by witnesses: the splitter
returns two fixed chunks, the embedding provider returns one vector per
content item, the index accepts every upsert and returns no points,
session creation yields a fixed id, and the agent emits one text
event. -/
def sampleCollab : Collab :=
  { splitText := fun _ => .ok ["alpha", "beta"]
    embedContent := fun ds => .ok (some (ds.map (fun _ => [(1 : ℚ)])))
    pointsUpsert := fun _ => .ok ()
    pointsQuery := fun _ => .ok []
    createSession := fun _ => .ok "sess-1"
    runAgent := fun _ _ _ _ => [.ok ["hello"]]
    freshId := fun i => "id-" ++ toString i }

/-- Witness for ingest_chunk_ids on a two-chunk upload. -/
theorem ingest_chunk_ids_witness :
    (("x" : String) ≠ "" ∧
     sampleCollab.splitText "x" = .ok ["alpha", "beta"] ∧
     (["alpha", "beta"] : List String).length ≠ 0 ∧
     sampleCollab.embedContent ["alpha", "beta"] =
       .ok (some [[(1 : ℚ)], [(1 : ℚ)]]) ∧
     ([[(1 : ℚ)], [(1 : ℚ)]] : List (List ℚ)).length =
       (["alpha", "beta"] : List String).length ∧
     sampleCollab.pointsUpsert (buildPoints sampleCollab.freshId
       (buildDocs sampleCollab.freshId ⟨"x", [], ""⟩ ["alpha", "beta"]
         [[(1 : ℚ)], [(1 : ℚ)]])) = .ok ()) ∧
    (handleUploadText sampleCollab ⟨"x", [], ""⟩ =
      (.ok "Text uploaded and chunked successfully"
        (["alpha", "beta"] : List String).length
        ((List.range (["alpha", "beta"] : List String).length).map
          sampleCollab.freshId),
       [.splitText "x", .embedContent ["alpha", "beta"],
        .upsert (buildDocs sampleCollab.freshId ⟨"x", [], ""⟩
          ["alpha", "beta"] [[(1 : ℚ)], [(1 : ℚ)]])]) ∧
     ((List.range (["alpha", "beta"] : List String).length).map
       sampleCollab.freshId).length = (["alpha", "beta"] : List String).length ∧
     (buildDocs sampleCollab.freshId ⟨"x", [], ""⟩ ["alpha", "beta"]
       [[(1 : ℚ)], [(1 : ℚ)]]).map (fun d => d.id) =
       (List.range (["alpha", "beta"] : List String).length).map
         sampleCollab.freshId ∧
     (buildDocs sampleCollab.freshId ⟨"x", [], ""⟩ ["alpha", "beta"]
       [[(1 : ℚ)], [(1 : ℚ)]]).map (fun d => d.content) = ["alpha", "beta"]) :=
  ⟨⟨by decide, rfl, by decide, rfl, by decide, rfl⟩,
   ingest_chunk_ids sampleCollab ⟨"x", [], ""⟩ ["alpha", "beta"]
     [[(1 : ℚ)], [(1 : ℚ)]] (by decide) rfl (by decide) rfl (by decide) rfl⟩

/-- Claim C6: when the embedding provider replies with a nil result or
with a vector count different from the chunk count, the whole ingestion
fails with HTTP 500 and no upsert call reaches the vector index. -/
theorem ingest_embed_mismatch (C : Collab) (req : UploadTextRequest)
    (chunks : List String) (r : Option (List (List ℚ)))
    (htext : req.text ≠ "")
    (hsplit : C.splitText req.text = .ok chunks)
    (hnz : chunks.length ≠ 0)
    (hprov : C.embedContent chunks = .ok r)
    (hbad : ∀ embs, r = some embs → embs.length ≠ chunks.length) :
    (∃ e, handleUploadText C req =
      (.err 500 ("Failed to generate embeddings: " ++ e),
       [.splitText req.text, .embedContent chunks])) ∧
    ∀ ds, Call.upsert ds ∉ (handleUploadText C req).2 := by
  have hED : ∃ e, embedDocuments C.embedContent chunks = .error e := by
    cases r with
    | none =>
        exact ⟨"unexpected number of embeddings: got 0, expected " ++
          toString chunks.length, by simp [embedDocuments, hprov]⟩
    | some embs =>
        exact ⟨"unexpected number of embeddings: got " ++ toString embs.length ++
          ", expected " ++ toString chunks.length,
          by simp [embedDocuments, hprov, hbad embs rfl]⟩
  obtain ⟨e, hED⟩ := hED
  constructor
  · exact ⟨e, by simp [handleUploadText, htext, hsplit, hnz, hED]⟩
  · intro ds
    simp [handleUploadText, htext, hsplit, hnz, hED]

/-- A collaborator bundle whose embedding provider always replies with
an empty vector list, mismatching every non-empty chunk list. -/
def sampleCollabMismatch : Collab :=
  { sampleCollab with embedContent := fun _ => .ok (some []) }

/-- Witness for ingest_embed_mismatch on a two-chunk upload whose
provider returns zero vectors. -/
theorem ingest_embed_mismatch_witness :
    (("x" : String) ≠ "" ∧
     sampleCollabMismatch.splitText "x" = .ok ["alpha", "beta"] ∧
     (["alpha", "beta"] : List String).length ≠ 0 ∧
     sampleCollabMismatch.embedContent ["alpha", "beta"] =
       .ok (some ([] : List (List ℚ))) ∧
     (∀ embs : List (List ℚ), some ([] : List (List ℚ)) = some embs →
       embs.length ≠ (["alpha", "beta"] : List String).length)) ∧
    ((∃ e, handleUploadText sampleCollabMismatch ⟨"x", [], ""⟩ =
      (.err 500 ("Failed to generate embeddings: " ++ e),
       [.splitText "x", .embedContent ["alpha", "beta"]])) ∧
     ∀ ds, Call.upsert ds ∉
       (handleUploadText sampleCollabMismatch ⟨"x", [], ""⟩).2) :=
  ⟨⟨by decide, rfl, by decide, rfl,
    fun embs h => by
      cases h
      decide⟩,
   ingest_embed_mismatch sampleCollabMismatch ⟨"x", [], ""⟩ ["alpha", "beta"]
     (some []) (by decide) rfl (by decide) rfl
     (fun embs h => by
       cases h
       decide)⟩

/-- Claim C7: when retrieval fails, handleChat does not abort; it
degrades to an empty retrieved context (the context section of the
instruction is empty), still invokes the agent runner with the
context-free instruction, and returns a normal answer response. -/
theorem chat_degrades_on_retrieval_failure (C : Collab) (cfgTopK : Int)
    (base : String) (req : ChatRequest) (e answer : String)
    (hmsg : req.message ≠ "")
    (hsid : req.sessionID ≠ "")
    (hret : retrieve C.embedContent C.pointsQuery cfgTopK req.message = .error e)
    (hrun : drainEvents (C.runAgent (buildInstruction base "")
        (if req.userID = "" then "default_user" else req.userID)
        req.sessionID req.message) = .ok answer) :
    buildContextSection none = "" ∧
    handleChat C cfgTopK base req =
      (.ok answer req.sessionID,
       [.retrieveCall req.message,
        .runAgent (buildInstruction base "")
          (if req.userID = "" then "default_user" else req.userID)
          req.sessionID req.message]) := by
  refine ⟨rfl, ?_⟩
  simp [handleChat, hmsg, hsid, chatWithSession, hret, buildContextSection, hrun]

/-- A collaborator bundle whose vector index is unreachable, so every
retrieval fails while everything else works. -/
def sampleCollabNoIndex : Collab :=
  { sampleCollab with pointsQuery := fun _ => .error "down" }

/-- Witness for chat_degrades_on_retrieval_failure: the index is down,
retrieval fails, and the chat still answers from the agent stream. -/
theorem chat_degrades_witness :
    (("hi" : String) ≠ "" ∧ ("sess-9" : String) ≠ "" ∧
     retrieve sampleCollabNoIndex.embedContent sampleCollabNoIndex.pointsQuery
       5 "hi" = .error "retrieval failed: failed to search: down" ∧
     drainEvents (sampleCollabNoIndex.runAgent (buildInstruction "base" "")
       (if ("" : String) = "" then "default_user" else "") "sess-9" "hi") =
       .ok "hello") ∧
    (buildContextSection none = "" ∧
     handleChat sampleCollabNoIndex 5 "base" ⟨"hi", "sess-9", ""⟩ =
       (.ok "hello" "sess-9",
        [.retrieveCall "hi",
         .runAgent (buildInstruction "base" "")
           (if ("" : String) = "" then "default_user" else "") "sess-9" "hi"])) :=
  ⟨⟨by decide, by decide, rfl, rfl⟩,
   chat_degrades_on_retrieval_failure sampleCollabNoIndex 5 "base"
     ⟨"hi", "sess-9", ""⟩ "retrieval failed: failed to search: down" "hello"
     (by decide) (by decide) rfl rfl⟩

/-! ## Map lemmas for the payload construction -/

/-- A key that occurs nowhere in the map reads as none. -/
theorem mapGet_eq_none (m : List (String × String)) (k : String)
    (h : k ∉ m.map Prod.fst) : mapGet m k = none := by
  unfold mapGet
  rw [List.find?_eq_none.mpr]
  · rfl
  · intro x hx
    simp only [beq_iff_eq]
    intro he
    exact h (List.mem_map.mpr ⟨x, hx, he⟩)

/-- Under a key that differs from k, filtering out the bindings of k
does not change a find of k2. -/
theorem find?_filter_ne (m : List (String × String)) (k k2 : String)
    (h : k2 ≠ k) :
    (m.filter (fun p => p.1 != k)).find? (fun p => p.1 == k2) =
      m.find? (fun p => p.1 == k2) := by
  induction m with
  | nil => rfl
  | cons hd tl ih =>
      rw [List.filter_cons]
      by_cases hk : hd.1 = k
      · have hcond : ¬((hd.1 != k) = true) := by
          simp [hk]
        have hne : ¬((hd.1 == k2) = true) := by
          simp only [beq_iff_eq, hk]
          exact fun he => h he.symm
        rw [if_neg hcond, List.find?_cons_of_neg tl hne, ih]
      · have hcond : (hd.1 != k) = true := by
          simp [hk]
        rw [if_pos hcond]
        by_cases h2 : hd.1 = k2
        · have hp : (hd.1 == k2) = true := by
            simp [h2]
          rw [@List.find?_cons_of_pos _ (fun p => p.1 == k2) hd
              (List.filter (fun p => p.1 != k) tl) hp,
            @List.find?_cons_of_pos _ (fun p => p.1 == k2) hd tl hp]
        · have hp : ¬((hd.1 == k2) = true) := by
            simp [h2]
          rw [@List.find?_cons_of_neg _ (fun p => p.1 == k2) hd
              (List.filter (fun p => p.1 != k) tl) hp,
            @List.find?_cons_of_neg _ (fun p => p.1 == k2) hd tl hp, ih]

/-- Reading back the key just written. -/
theorem mapGet_mapSet_self (m : List (String × String)) (k v : String) :
    mapGet (mapSet m k v) k = some v := by
  unfold mapGet mapSet
  rw [List.find?_append]
  have h1 : (m.filter (fun p => p.1 != k)).find? (fun p => p.1 == k) = none := by
    rw [List.find?_eq_none]
    intro x hx
    have hx2 := List.of_mem_filter hx
    simp only [bne_iff_ne, ne_eq] at hx2
    simp only [beq_iff_eq]
    exact hx2
  rw [h1]
  simp

/-- Writing one key leaves every other key unchanged. -/
theorem mapGet_mapSet_ne (m : List (String × String)) (k v k2 : String)
    (h : k2 ≠ k) : mapGet (mapSet m k v) k2 = mapGet m k2 := by
  unfold mapGet mapSet
  rw [List.find?_append]
  have h2 : (([(k, v)] : List (String × String)).find?
      (fun p => p.1 == k2)) = none := by
    simp only [List.find?_cons, List.find?_nil]
    have : ¬(k == k2) = true := by
      simp only [beq_iff_eq]
      exact fun he => h he.symm
    simp [this]
  rw [h2, Option.or_none, find?_filter_ne m k k2 h]

/-- A map write preserves distinctness of the keys. -/
theorem mapSet_keys_nodup (m : List (String × String)) (k v : String)
    (h : (m.map Prod.fst).Nodup) : ((mapSet m k v).map Prod.fst).Nodup := by
  unfold mapSet
  rw [List.map_append]
  refine List.Nodup.append
    (List.Nodup.sublist (List.Sublist.map Prod.fst (List.filter_sublist m)) h)
    (List.nodup_singleton k) ?_
  intro a ha hb
  have hb2 : a = k := by simpa using hb
  subst hb2
  obtain ⟨p, hp, hpa⟩ := List.mem_map.mp ha
  have hfil := List.of_mem_filter hp
  simp only [bne_iff_ne, ne_eq] at hfil
  exact hfil hpa

/-- Folding map writes for a list with distinct keys: a key bound in the
list reads as its bound value, any other key reads from the initial
map. -/
theorem mapGet_foldl_mapSet (l : List (String × String))
    (init : List (String × String)) (k : String)
    (h : (l.map Prod.fst).Nodup) :
    mapGet (l.foldl (fun p kv => mapSet p kv.1 kv.2) init) k =
      match mapGet l k with
      | some v => some v
      | none => mapGet init k := by
  induction l generalizing init with
  | nil => simp [mapGet]
  | cons hd tl ih =>
      rw [List.map_cons, List.nodup_cons] at h
      obtain ⟨hnotin, h2⟩ := h
      rw [List.foldl_cons]
      by_cases hk : hd.1 = k
      · subst hk
        have htl : mapGet tl hd.1 = none := mapGet_eq_none tl hd.1 hnotin
        rw [ih (mapSet init hd.1 hd.2) h2, htl, mapGet_mapSet_self]
        simp [mapGet]
      · rw [ih (mapSet init hd.1 hd.2) h2,
          mapGet_mapSet_ne init hd.1 hd.2 k (fun he => hk he.symm)]
        have hskip : mapGet (hd :: tl) k = mapGet tl k := by
          have hne : ¬(hd.1 == k) = true := by
            simp only [beq_iff_eq]
            exact hk
          simp [mapGet, List.find?_cons, hne]
        rw [hskip]

/-- With distinct keys, membership determines a map read. -/
theorem mapGet_of_mem_nodup (m : List (String × String)) (k v : String)
    (hm : (k, v) ∈ m) (h : (m.map Prod.fst).Nodup) : mapGet m k = some v := by
  induction m with
  | nil => cases hm
  | cons hd tl ih =>
      rw [List.map_cons, List.nodup_cons] at h
      obtain ⟨hnotin, h2⟩ := h
      rcases List.mem_cons.mp hm with he | hm2
      · rw [← he]
        simp [mapGet]
      · have hkmem : k ∈ tl.map Prod.fst :=
          List.mem_map.mpr ⟨(k, v), hm2, rfl⟩
        have hne : ¬(hd.1 == k) = true := by
          simp only [beq_iff_eq]
          intro heq
          exact hnotin (heq ▸ hkmem)
        have hskip : mapGet (hd :: tl) k = mapGet tl k := by
          simp [mapGet, List.find?_cons, hne]
        rw [hskip]
        exact ih hm2 h2

/-- Claim C10: when the caller-supplied metadata of an ingestion
contains the key content, the stored point payload binds content to
that metadata value instead of the chunk text, so a later search
returns the metadata value as the result Content; the keys source
(when a non-empty source is supplied) and chunk_index keep their
server-written values because they are written after the merge. -/
theorem caller_metadata_content_overwrite (M : List (String × String))
    (hnd : (M.map Prod.fst).Nodup) (m : String) (hm : ("content", m) ∈ M)
    (hmne : m ≠ "") (src : String) (hsrc : src ≠ "") (i : Nat)
    (did chunk : String) (dense : List ℚ) (pid : String) (score : ℚ) :
    mapGet (buildPayload ⟨did, chunk, mergeMetadata M src i, dense, none⟩)
      "content" = some m ∧
    mapGet (buildPayload ⟨did, chunk, mergeMetadata M src i, dense, none⟩)
      "source" = some src ∧
    mapGet (buildPayload ⟨did, chunk, mergeMetadata M src i, dense, none⟩)
      "chunk_index" = some (toString i) ∧
    (extractSearchResult ⟨pid, score,
      buildPayload ⟨did, chunk, mergeMetadata M src i, dense, none⟩⟩).content =
      m := by
  have hmergend : ((mergeMetadata M src i).map Prod.fst).Nodup := by
    unfold mergeMetadata
    rw [if_neg hsrc]
    exact mapSet_keys_nodup _ _ _ (mapSet_keys_nodup _ _ _ hnd)
  have hbp : ∀ k, mapGet
      (buildPayload ⟨did, chunk, mergeMetadata M src i, dense, none⟩) k =
      match mapGet (mergeMetadata M src i) k with
      | some v => some v
      | none => mapGet (mapSet [] "content" chunk) k :=
    fun k => mapGet_foldl_mapSet (mergeMetadata M src i)
      (mapSet [] "content" chunk) k hmergend
  have hcontent : mapGet (mergeMetadata M src i) "content" = some m := by
    unfold mergeMetadata
    rw [if_neg hsrc, mapGet_mapSet_ne _ _ _ _ (by decide),
      mapGet_mapSet_ne _ _ _ _ (by decide)]
    exact mapGet_of_mem_nodup M "content" m hm hnd
  have hsource : mapGet (mergeMetadata M src i) "source" = some src := by
    unfold mergeMetadata
    rw [if_neg hsrc, mapGet_mapSet_ne _ _ _ _ (by decide)]
    exact mapGet_mapSet_self _ _ _
  have hci : mapGet (mergeMetadata M src i) "chunk_index" =
      some (toString i) := by
    unfold mergeMetadata
    rw [if_neg hsrc]
    exact mapGet_mapSet_self _ _ _
  have hBPc : mapGet
      (buildPayload ⟨did, chunk, mergeMetadata M src i, dense, none⟩)
      "content" = some m := by
    rw [hbp "content", hcontent]
  refine ⟨hBPc, ?_, ?_, ?_⟩
  · rw [hbp "source", hsource]
  · rw [hbp "chunk_index", hci]
  · show (match mapGet
        (buildPayload ⟨did, chunk, mergeMetadata M src i, dense, none⟩)
        "content" with
      | some v => if v = "" then "" else v
      | none => "") = m
    rw [hBPc]
    simp [hmne]

/-- Witness for caller_metadata_content_overwrite: caller metadata binds
content to the value meta, the chunk text is the string chunk. -/
theorem caller_metadata_content_overwrite_witness :
    ((([("content", "meta")] : List (String × String)).map Prod.fst).Nodup ∧
     ("content", "meta") ∈ ([("content", "meta")] : List (String × String)) ∧
     ("meta" : String) ≠ "" ∧ ("s" : String) ≠ "") ∧
    (mapGet (buildPayload ⟨"d", "chunk",
        mergeMetadata [("content", "meta")] "s" 0, [], none⟩) "content" =
      some "meta" ∧
     mapGet (buildPayload ⟨"d", "chunk",
        mergeMetadata [("content", "meta")] "s" 0, [], none⟩) "source" =
      some "s" ∧
     mapGet (buildPayload ⟨"d", "chunk",
        mergeMetadata [("content", "meta")] "s" 0, [], none⟩) "chunk_index" =
      some (toString 0) ∧
     (extractSearchResult ⟨"p", 0, buildPayload ⟨"d", "chunk",
        mergeMetadata [("content", "meta")] "s" 0, [], none⟩⟩).content =
      "meta") :=
  ⟨⟨by decide, by decide, by decide, by decide⟩,
   caller_metadata_content_overwrite [("content", "meta")] (by decide) "meta"
     (by decide) (by decide) "s" (by decide) 0 "d" "chunk" [] "p" 0⟩

end AgenticRag
